import Mathlib

/-
  Verification of the arkdep Calamares module
  (src/additional-modules/arkdep/main.py) against its specification.

  The Python module is shallowly embedded: effectful code is modelled in a
  writer-plus-exception monad `M` over an environment `Env` that supplies the
  outcomes of every primitive operating-system interaction (path existence,
  directory listings, external command results, file reads and writes).  Each
  Lean definition below is translated from the correspondingly named Python
  function.
-/

/-- A Python exception value, as far as the module distinguishes them:
`subprocess.CalledProcessError` is caught specially in two places; every
other exception is only ever caught by a blanket `except Exception`. -/
inductive PyExc where
  | calledProcessError (returncode : Int)
  | osError (msg : String)
  | other (msg : String)
deriving DecidableEq, Repr

/-- Observable events of a run: external commands issued, messages logged via
libcalamares.utils (level is "error" or "debug"), files written or read,
directories created, files copied. -/
inductive Event where
  | cmd (args : List String)
  | log (level : String) (msg : String)
  | write (path : String) (content : String)
  | read (path : String)
  | makedirs (path : String)
  | copy (src : String) (dst : String)
deriving DecidableEq, Repr

/-- Outcome of spawning an external command: either the process ran to
completion with a return code and combined output, or spawning raised. -/
inductive CmdOutcome where
  | completed (returncode : Int) (output : String)
  | raised (e : PyExc)
deriving DecidableEq, Repr

deriving instance DecidableEq for Except

/-- The computation monad: a result (or an uncaught Python exception) together
with the ordered trace of events that occurred. -/
abbrev M (α : Type) : Type := Except PyExc α × List Event

/-- Return a value with no events. -/
def mret {α : Type} (a : α) : M α := (Except.ok a, [])

/-- Raise a Python exception. -/
def mraise {α : Type} (e : PyExc) : M α := (Except.error e, [])

/-- Sequencing: events accumulate in order; an exception aborts the rest. -/
def mbind {α β : Type} (m : M α) (f : α → M β) : M β :=
  match m with
  | (Except.error e, tr) => (Except.error e, tr)
  | (Except.ok a, tr) => ((f a).1, tr ++ (f a).2)

/-- Record one event. -/
def memit (e : Event) : M Unit := (Except.ok (), [e])

/-- Run `m`; on any exception (Python `except Exception`), run the handler
after the events `m` already produced. -/
def pyTryAll {α : Type} (m : M α) (handler : PyExc → M α) : M α :=
  match m with
  | (Except.error e, tr) => ((handler e).1, tr ++ (handler e).2)
  | ok => ok

/-- Run `m`; catch only `subprocess.CalledProcessError`, re-raise the rest. -/
def pyTryCPE {α : Type} (m : M α) (handler : Int → M α) : M α :=
  match m with
  | (Except.error (PyExc.calledProcessError n), tr) =>
      ((handler n).1, tr ++ (handler n).2)
  | other => other

/-- The external commands issued during a run, in order. -/
def cmdEvents (tr : List Event) : List (List String) :=
  tr.filterMap (fun e => match e with | Event.cmd c => some c | _ => none)

/-- Python truthiness of an optional string: `None` and `""` are falsy. -/
def truthyStr (o : Option String) : Bool := !(o.getD "").isEmpty

/-- One Calamares partition record, as read from global storage.  Absent
dictionary keys are `none`. -/
structure Partition where
  device : Option String := none
  mountPoint : Option String := none
  fs : Option String := none
  uuid : Option String := none
  luksMapperName : Option String := none
  luksUuid : Option String := none
deriving DecidableEq, Repr

/-- The environment a run executes in: the framework inputs (partition list,
root mount point, job configuration) and the behaviour of every primitive
operating-system interaction the module performs. -/
structure Env where
  partitions : List Partition
  rootmount : String
  repoUrl : Option String
  repoImage : Option String
  pathExists : String → Bool
  cmdOutcome : List String → CmdOutcome
  makedirsRes : String → Option PyExc
  copyRes : String → String → Option PyExc
  openWriteRes : String → String → Option PyExc
  readFileRes : String → Except PyExc String
  reSub : String → String → String → String
  listdirRes : String → Except PyExc (List String)
  isdir : String → Bool
  ismount : String → Bool

/-- os.path.join for two components (root mount points are modelled without a
trailing slash). -/
def joinPath (a b : String) : String := a ++ "/" ++ b

/-- os.path.dirname. -/
def dirname (s : String) : String :=
  String.intercalate "/" (s.splitOn "/").dropLast

/-- str.strip(): drop whitespace from both ends (structurally recursive so
that concrete runs reduce). -/
def pyStrip (s : String) : String :=
  String.mk (((s.data.dropWhile Char.isWhitespace).reverse.dropWhile Char.isWhitespace).reverse)

/-- PartitionManager.get_partition: first record whose mountPoint equals the
requested mountpoint; the empty dictionary (here `none`) when nothing
matches. -/
def get_partition (pl : List Partition) (mountpoint : String) : Option Partition :=
  pl.find? (fun p => p.mountPoint == some mountpoint)

/-- The blkid invocation used to probe a filesystem UUID. -/
def blkid_cmd (mapper : String) : List String :=
  ["blkid", "-s", "UUID", "-o", "value", mapper]

/-- subprocess.check_output: the command runs; zero exit yields its output,
non-zero exit raises CalledProcessError, a spawn failure re-raises. -/
def check_output (env : Env) (cmd : List String) : M String :=
  match env.cmdOutcome cmd with
  | CmdOutcome.completed n out =>
      if n = 0 then (Except.ok out, [Event.cmd cmd])
      else (Except.error (PyExc.calledProcessError n), [Event.cmd cmd])
  | CmdOutcome.raised e => (Except.error e, [Event.cmd cmd])

/-- PartitionManager.get_uuid. -/
def get_uuid (env : Env) (mountpoint : String) (filesystem : Bool) : M String :=
  match get_partition env.partitions mountpoint with
  | none => mret ""
  | some partition =>
    if truthyStr partition.luksMapperName then
      if filesystem then
        let mapper := "/dev/mapper/" ++ partition.luksMapperName.getD ""
        if env.pathExists mapper then
          pyTryCPE
            (mbind (check_output env (blkid_cmd mapper)) fun out => mret (pyStrip out))
            (fun _ => mret (partition.uuid.getD ""))
        else mret (partition.uuid.getD "")
      else mret (partition.luksUuid.getD "")
    else mret (partition.uuid.getD "")

/-- PartitionManager.get_device. -/
def get_device (pl : List Partition) (mountpoint : String) : Option String :=
  match get_partition pl mountpoint with
  | none => none
  | some partition =>
    if truthyStr partition.luksMapperName then
      some ("/dev/mapper/" ++ partition.luksMapperName.getD "")
    else partition.device

/-- PartitionManager.is_luks. -/
def is_luks (pl : List Partition) (mountpoint : String) : Bool :=
  truthyStr ((get_partition pl mountpoint).bind (fun p => p.luksMapperName))

/-- PartitionManager.get_filesystem: the fs field of the matching record,
defaulting to "btrfs" (also when no record matches). -/
def get_filesystem (pl : List Partition) (mountpoint : String) : String :=
  ((get_partition pl mountpoint).bind (fun p => p.fs)).getD "btrfs"

/-- os.makedirs(path, exist_ok=True): may raise; raising is not caught here. -/
def pyMakedirs (env : Env) (d : String) : M Unit :=
  match env.makedirsRes d with
  | none => (Except.ok (), [Event.makedirs d])
  | some e => (Except.error e, [])

/-- open(path, "w") followed by f.write(content): may raise. -/
def pyWriteFile (env : Env) (path content : String) : M Unit :=
  match env.openWriteRes path content with
  | none => (Except.ok (), [Event.write path content])
  | some e => (Except.error e, [])

/-- open(path, "r") followed by f.read(): may raise. -/
def pyReadFile (env : Env) (path : String) : M String :=
  match env.readFileRes path with
  | Except.ok content => (Except.ok content, [Event.read path])
  | Except.error e => (Except.error e, [])

/-- os.listdir(path): may raise; raising is not caught at its call site. -/
def pyListdir (env : Env) (d : String) : M (List String) :=
  match env.listdirRes d with
  | Except.ok l => (Except.ok l, [])
  | Except.error e => (Except.error e, [])

/-- shutil.copy(src, dst): may raise. -/
def pyCopy (env : Env) (src dst : String) : M Unit :=
  match env.copyRes src dst with
  | none => (Except.ok (), [Event.copy src dst])
  | some e => (Except.error e, [])

/-- FileManager.write: create parent directories and write the file; any
exception is caught, logged and turned into False. -/
def fmWrite (env : Env) (path content : String) : M Bool :=
  pyTryAll
    (mbind (pyMakedirs env (dirname path)) fun _ =>
     mbind (pyWriteFile env path content) fun _ => mret true)
    (fun _ =>
      mbind (memit (Event.log "error" ("Failed to write " ++ path))) fun _ =>
      mret false)

/-- subprocess.check_call: zero exit returns, non-zero exit raises
CalledProcessError, a spawn failure re-raises. -/
def check_call (env : Env) (cmd : List String) : M Unit :=
  match env.cmdOutcome cmd with
  | CmdOutcome.completed n _ =>
      if n = 0 then (Except.ok (), [Event.cmd cmd])
      else (Except.error (PyExc.calledProcessError n), [Event.cmd cmd])
  | CmdOutcome.raised e => (Except.error e, [Event.cmd cmd])

/-- FileManager.run_cmd: check_call with only CalledProcessError caught;
any other exception (for example a missing binary) propagates. -/
def runCmd (env : Env) (cmd : List String) : M Bool :=
  pyTryCPE
    (mbind (check_call env cmd) fun _ => mret true)
    (fun n =>
      mbind (memit (Event.log "error" ("Command failed: returncode " ++ toString n))) fun _ =>
      mret false)

/-- FileManager.run_cmd_with_logging.  The two daemon threads (periodic
progress announcements and output draining) are concurrent real-time
behaviour and are not modelled; only the blocking wait on the child and the
resulting Boolean are.  The enclosing try catches every exception. -/
def runCmdWithLogging (env : Env) (cmd : List String) : M Bool :=
  pyTryAll
    (match env.cmdOutcome cmd with
     | CmdOutcome.completed n _ =>
         if n = 0 then
           (Except.ok true,
            [Event.cmd cmd,
             Event.log "debug" ("Command completed successfully: " ++ String.intercalate " " cmd)])
         else
           (Except.ok false,
            [Event.cmd cmd,
             Event.log "error" ("Command failed with code " ++ toString n)])
     | CmdOutcome.raised e => (Except.error e, []))
    (fun _ =>
      mbind (memit (Event.log "error" "Command failed")) fun _ => mret false)

/-- The source of the boot-loader binaries copied by setup_systemd_boot. -/
def systemd_boot_src : String := "/usr/lib/systemd/boot/efi/systemd-bootx64.efi"

/-- TEMPLATES of the loader configuration file. -/
def loader_conf_text : String :=
  "timeout 5\nconsole-mode max\neditor yes\nauto-entries yes\nauto-firmware yes\n"

/-- TEMPLATES of the group file. -/
def group_file_text : String := "root:x:0:root\nwheel:x:998:\n"

/-- One iteration of setup_systemd_boot's copy loop: try shutil.copy, and on
any exception log and answer False (aborting the whole step). -/
def try_copy (env : Env) (dst : String) : M Bool :=
  pyTryAll
    (mbind (pyCopy env systemd_boot_src dst) fun _ => mret true)
    (fun _ =>
      mbind (memit (Event.log "error" "Error copying systemd-boot")) fun _ =>
      mret false)

/-- Arkdep.setup_systemd_boot.  The three os.makedirs calls are outside any
try block, so their exceptions propagate. -/
def setup_systemd_boot (env : Env) : M Bool :=
  mbind (pyMakedirs env (joinPath (joinPath (joinPath env.rootmount "boot") "EFI") "BOOT")) fun _ =>
  mbind (pyMakedirs env (joinPath (joinPath (joinPath env.rootmount "boot") "EFI") "systemd")) fun _ =>
  mbind (pyMakedirs env (joinPath (joinPath (joinPath env.rootmount "boot") "loader") "entries")) fun _ =>
  mbind (try_copy env (joinPath (joinPath (joinPath (joinPath env.rootmount "boot") "EFI") "systemd") "systemd-bootx64.efi")) fun ok1 =>
  if ok1 then
    mbind (try_copy env (joinPath (joinPath (joinPath (joinPath env.rootmount "boot") "EFI") "BOOT") "BOOTx64.EFI")) fun ok2 =>
    if ok2 then
      fmWrite env (joinPath (joinPath (joinPath env.rootmount "boot") "loader") "loader.conf") loader_conf_text
    else mret false
  else mret false

/-- The regular expression and replacement used for the repo_url rewrite. -/
def repo_url_pattern : String :=
  "repo_url\\s*=\\s*[\x27\"][^\x27\"]*[\x27\"]"

/-- The regular expression used for the repo_default_image rewrite. -/
def repo_image_pattern : String :=
  "repo_default_image\\s*=\\s*[\x27\"][^\x27\"]*[\x27\"]"

/-- Arkdep.update_arkdep_config.  The re.sub calls are modelled by the
environment-supplied function `Env.reSub` (pattern, replacement, content). -/
def update_arkdep_config (env : Env) : M Bool :=
  if !truthyStr env.repoUrl && !truthyStr env.repoImage then mret true
  else
    if !env.pathExists (joinPath (joinPath env.rootmount "arkdep") "config") then mret true
    else
      pyTryAll
        (mbind (pyReadFile env (joinPath (joinPath env.rootmount "arkdep") "config")) fun content =>
         let content1 :=
           if truthyStr env.repoUrl then
             env.reSub repo_url_pattern ("repo_url=\x27" ++ env.repoUrl.getD "" ++ "\x27") content
           else content
         let content2 :=
           if truthyStr env.repoImage then
             env.reSub repo_image_pattern ("repo_default_image=\x27" ++ env.repoImage.getD "" ++ "\x27") content1
           else content1
         mbind (pyWriteFile env (joinPath (joinPath env.rootmount "arkdep") "config") content2) fun _ =>
         mret true)
        (fun _ =>
          mbind (memit (Event.log "error" "Failed to update arkdep config")) fun _ =>
          mret false)

/-- TEMPLATES fstab, as a function of its three placeholders (tabs are as in
the source literal). -/
def fstab_text (root_fs_uuid esp_uuid home_fstab : String) : String :=
  "UUID=\"" ++ root_fs_uuid ++ "\"\t/root\t\t\tbtrfs\trw,relatime,ssd,discard=async,space_cache=v2,subvol=arkdep/shared/root,compress=zstd\t\t\t0 1\nUUID=\"" ++ root_fs_uuid ++ "\"\t/arkdep\t\t\tbtrfs\trw,relatime,ssd,discard=async,space_cache=v2,subvol=arkdep,compress=zstd\t\t\t\t0 1\nUUID=\"" ++ root_fs_uuid ++ "\"\t/var/lib/flatpak\tbtrfs\trw,relatime,ssd,discard=async,space_cache=v2,subvol=arkdep/shared/flatpak,compress=zstd\t\t\t0 1\nUUID=\"" ++ esp_uuid ++ "\"      \t/boot     \t\tvfat\trw,relatime,fmask=0022,dmask=0022,codepage=437,iocharset=ascii,shortname=mixed,utf8,errors=remount-ro\t0 2\n" ++ home_fstab ++ "\n"

/-- TEMPLATES home_fstab, as a function of its three placeholders. -/
def home_fstab_text (home_fs_uuid fs_type mount_options : String) : String :=
  "UUID=\"" ++ home_fs_uuid ++ "\"\t/home\t\t\t" ++ fs_type ++ "\t" ++ mount_options ++ "\t0 1\n"

/-- TEMPLATES systemd_boot (plain variant), as a function of its two
placeholders. -/
def systemd_boot_text (root_uuid home_option : String) : String :=
  "title Manjaro Summit\nlinux /arkdep/%target%/vmlinuz\ninitrd /amd-ucode.img\ninitrd /intel-ucode.img\ninitrd /arkdep/%target%/initramfs-linux.img\noptions root=\"UUID=" ++ root_uuid ++ "\" rootflags=subvol=/arkdep/deployments/%target%/rootfs " ++ home_option ++ " lsm=landlock,lockdown,yama,integrity,apparmor,bpf quiet splash loglevel=3 systemd.show_status=auto rd.udev.log_level=3 rw\n"

/-- TEMPLATES luks_systemd_boot (encrypted-root variant), as a function of its
two placeholders. -/
def luks_systemd_boot_text (root_uuid home_option : String) : String :=
  "title Manjaro Summit\nlinux /arkdep/%target%/vmlinuz\ninitrd /amd-ucode.img\ninitrd /intel-ucode.img\ninitrd /arkdep/%target%/initramfs-linux.img\noptions " ++ ("rd.luks.name=" ++ root_uuid ++ "=manjaro_root") ++ (" root=/dev/mapper/manjaro_root rootflags=subvol=/arkdep/deployments/%target%/rootfs " ++ home_option ++ " lsm=landlock,lockdown,yama,integrity,apparmor,bpf quiet splash loglevel=3 systemd.show_status=auto rd.udev.log_level=3 rw\n")

/-- The home line of Arkdep.configure_fstab: the dedicated-partition branch
when a /home record exists, the shared-subvolume fallback otherwise. -/
def home_fstab_content (env : Env) (root_fs_uuid : String) : M String :=
  match get_partition env.partitions "/home" with
  | some _ =>
    let fs_type := get_filesystem env.partitions "/home"
    let mount_options :=
      if fs_type = "btrfs" then "rw,relatime,ssd,discard=async,space_cache=v2,compress=zstd"
      else "rw,relatime,errors=remount-ro"
    mbind (get_uuid env "/home" true) fun home_fs_uuid =>
    mret (home_fstab_text home_fs_uuid fs_type mount_options)
  | none =>
    mret (home_fstab_text root_fs_uuid "btrfs"
      "rw,relatime,ssd,discard=async,space_cache=v2,subvol=arkdep/shared/home,compress=zstd")

/-- Arkdep.configure_fstab. -/
def configure_fstab (env : Env) : M Bool :=
  mbind (get_uuid env "/" true) fun root_fs_uuid =>
  mbind (get_uuid env "/boot" false) fun esp_uuid =>
  mbind (home_fstab_content env root_fs_uuid) fun home_fstab =>
  fmWrite env
    (joinPath (joinPath (joinPath (joinPath env.rootmount "arkdep") "overlay") "etc") "fstab")
    (fstab_text root_fs_uuid esp_uuid home_fstab)

/-- The template_content computed by Arkdep.configure_boot_template before it
is written out. -/
def boot_template_content (env : Env) : M String :=
  mbind (get_uuid env "/" false) fun root_uuid =>
  mbind
    (if is_luks env.partitions "/home" then
       mbind (get_uuid env "/home" false) fun home_luks_uuid =>
       mret (if home_luks_uuid.isEmpty then ""
             else "rd.luks.name=" ++ home_luks_uuid ++ "=manjaro_home")
     else mret "")
    fun home_option =>
  mret (if is_luks env.partitions "/" then luks_systemd_boot_text root_uuid home_option
        else systemd_boot_text root_uuid home_option)

/-- Arkdep.configure_boot_template. -/
def configure_boot_template (env : Env) : M Bool :=
  mbind (boot_template_content env) fun content =>
  fmWrite env
    (joinPath (joinPath (joinPath env.rootmount "arkdep") "templates") "systemd-boot")
    content

/-- The deployments directory scanned by Arkdep.remount_system. -/
def deployments_dir_path (env : Env) : String :=
  joinPath (joinPath env.rootmount "arkdep") "deployments"

/-- The `commands` list of Arkdep.remount_system before `filter(None, ...)`:
the skipped /home unmount is the `none` entry. -/
def remount_command_options (env : Env) (deployment_subvol : String) : List (Option (List String)) :=
  [ some ["umount", joinPath env.rootmount "boot"],
    if env.ismount (joinPath env.rootmount "home") then
      some ["umount", joinPath env.rootmount "home"]
    else none,
    some ["umount", env.rootmount],
    some ["mount", "-o", "subvol=" ++ deployment_subvol,
          (get_device env.partitions "/").getD "", env.rootmount],
    if truthyStr (get_device env.partitions "/home") then
      some ["mount", (get_device env.partitions "/home").getD "", joinPath env.rootmount "home"]
    else
      some ["mount", "-o", "subvol=/arkdep/shared/home",
            (get_device env.partitions "/").getD "", joinPath env.rootmount "home"],
    some ["mount", (get_device env.partitions "/boot").getD "", joinPath env.rootmount "boot"] ]

/-- The final loop of Arkdep.remount_system: run each command, stop at the
first failure. -/
def runCmds (env : Env) : List (List String) → M Bool
  | [] => mret true
  | c :: rest =>
    mbind (runCmd env c) fun ok =>
    if ok then runCmds env rest else mret false

/-- Arkdep.remount_system.  os.listdir is outside any try block, so its
exceptions propagate. -/
def remount_system (env : Env) : M Bool :=
  if !truthyStr (get_device env.partitions "/") || !truthyStr (get_device env.partitions "/boot") then
    mbind (memit (Event.log "error" "Required devices not found")) fun _ => mret false
  else
    mbind (pyListdir env (deployments_dir_path env)) fun entries =>
    match entries.filter (fun d => env.isdir (joinPath (deployments_dir_path env) d)) with
    | [] => mbind (memit (Event.log "error" "No deployment found")) fun _ => mret false
    | d :: _ =>
      runCmds env
        ((remount_command_options env ("/arkdep/deployments/" ++ d ++ "/rootfs")).filterMap id)

/-- The step loop of Arkdep.install: run the steps in order; the first step
answering False produces the (title, message) pair. -/
def runSteps : List (String × M Bool) → M (Option (String × String))
  | [] => mret none
  | (description, act) :: rest =>
    mbind act fun ok =>
    if ok then runSteps rest
    else mret (some ("Installation Error", "Failed: " ++ description))

/-- The ordered step list of Arkdep.install.  The environment-variable
dictionary passed to the external tool does not influence any modelled
outcome and is absorbed into `Env.cmdOutcome`. -/
def install_steps (env : Env) : List (String × M Bool) :=
  [ ("Setup systemd-boot", setup_systemd_boot env),
    ("Initialize arkdep", runCmd env ["arkdep", "init"]),
    ("Update arkdep config", update_arkdep_config env),
    ("Configure fstab", configure_fstab env),
    ("Write group file",
      fmWrite env
        (joinPath (joinPath (joinPath (joinPath env.rootmount "arkdep") "overlay") "etc") "group")
        group_file_text),
    ("Configure boot template", configure_boot_template env),
    ("Deploy system", runCmdWithLogging env ["arkdep", "deploy"]),
    ("Remount system", remount_system env) ]

/-- Arkdep.install. -/
def install (env : Env) : M (Option (String × String)) :=
  runSteps (install_steps env)

/-- Modelled from the spec, section 4.4: the six mount and unmount operations
in the order the specification prescribes, with the /home unmount present
only when /home is currently a mountpoint (step 2), the deployment rootfs
subvolume mount (step 4), and the home mount choosing the dedicated device
when one exists and the shared-home subvolume otherwise (step 5). -/
def spec_remount_sequence (env : Env) (deployment_subvol : String) : List (List String) :=
  [["umount", joinPath env.rootmount "boot"]]
  ++ (if env.ismount (joinPath env.rootmount "home") then
        [["umount", joinPath env.rootmount "home"]]
      else [])
  ++ [["umount", env.rootmount],
      ["mount", "-o", "subvol=" ++ deployment_subvol,
       (get_device env.partitions "/").getD "", env.rootmount],
      (if truthyStr (get_device env.partitions "/home") then
        ["mount", (get_device env.partitions "/home").getD "", joinPath env.rootmount "home"]
      else
        ["mount", "-o", "subvol=/arkdep/shared/home",
         (get_device env.partitions "/").getD "", joinPath env.rootmount "home"]),
      ["mount", (get_device env.partitions "/boot").getD "", joinPath env.rootmount "boot"]]

/-- Whether running `c` in `env` is anything other than a clean zero exit. -/
def cmd_fails (env : Env) (c : List String) : Bool :=
  match env.cmdOutcome c with
  | CmdOutcome.completed n _ => !(n == 0)
  | CmdOutcome.raised _ => true

/-- A benign environment: no partitions, every primitive succeeds. -/
def baseEnv : Env where
  partitions := []
  rootmount := "/tmp/calamares-root"
  repoUrl := none
  repoImage := none
  pathExists := fun _ => false
  cmdOutcome := fun _ => CmdOutcome.completed 0 ""
  makedirsRes := fun _ => none
  copyRes := fun _ _ => none
  openWriteRes := fun _ _ => none
  readFileRes := fun _ => Except.ok ""
  reSub := fun _ _ content => content
  listdirRes := fun _ => Except.ok []
  isdir := fun _ => false
  ismount := fun _ => false

/-- An encrypted root partition record whose plain uuid field is set, as the
partition framework supplies it. -/
def luksRootPart : Partition :=
  { device := some "/dev/sda2", mountPoint := some "/", fs := some "btrfs",
    uuid := some "AAAA-1111", luksMapperName := some "cryptroot",
    luksUuid := some "LUKS-CONTAINER-UUID" }

/-- A plain boot partition record. -/
def bootPart : Partition :=
  { device := some "/dev/sda1", mountPoint := some "/boot", fs := some "vfat",
    uuid := some "BBBB-2222" }

/-- A plain root partition record. -/
def plainRootPart : Partition :=
  { device := some "/dev/sda2", mountPoint := some "/", fs := some "btrfs",
    uuid := some "AAAA-1111" }

/-- A dedicated home partition record. -/
def homePart : Partition :=
  { device := some "/dev/sda3", mountPoint := some "/home", fs := some "ext4",
    uuid := some "CCCC-3333" }

/-- Prefix a trace onto a computation's trace. -/
def prependTrace {α : Type} (tr : List Event) (m : M α) : M α := (m.1, tr ++ m.2)

/-- Whether an event is a warning-level log message. -/
def isWarning (e : Event) : Bool :=
  match e with
  | Event.log lvl _ => lvl == "warning"
  | _ => false

/-- The path of the generated fstab file. -/
def fstab_path (env : Env) : String :=
  joinPath (joinPath (joinPath (joinPath env.rootmount "arkdep") "overlay") "etc") "fstab"

/-- The value of get_uuid with filesystem=False, which never consults the
disk: the container UUID for encrypted records, the plain uuid otherwise. -/
def uuid_false_val (pl : List Partition) (mp : String) : String :=
  match get_partition pl mp with
  | none => ""
  | some p =>
    if truthyStr p.luksMapperName then p.luksUuid.getD "" else p.uuid.getD ""

/-- The home_option value computed by configure_boot_template, as a pure
function of the partition list. -/
def home_option_val (pl : List Partition) : String :=
  if is_luks pl "/home" then
    (if (uuid_false_val pl "/home").isEmpty then ""
     else "rd.luks.name=" ++ uuid_false_val pl "/home" ++ "=manjaro_home")
  else ""

/-- The template_content of configure_boot_template as a pure function of
the partition list. -/
def boot_template_pure (pl : List Partition) : String :=
  if is_luks pl "/" then
    luks_systemd_boot_text (uuid_false_val pl "/") (home_option_val pl)
  else
    systemd_boot_text (uuid_false_val pl "/") (home_option_val pl)

/-- The C1 setting: an encrypted root whose mapper device is absent. -/
def c1Env : Env := { baseEnv with partitions := [luksRootPart, bootPart] }

/-- The C1 setting with the mapper present and blkid reporting a UUID. -/
def c1wEnv : Env :=
  { baseEnv with
    partitions := [luksRootPart],
    pathExists := fun _ => true,
    cmdOutcome := fun _ => CmdOutcome.completed 0 " FS-UUID-77 \n" }

/-- Same partition list as c1Env but different disk state and command
outcomes, to exercise purity of boot-entry rendering. -/
def c6Env2 : Env :=
  { baseEnv with
    partitions := [luksRootPart, bootPart],
    pathExists := fun _ => true,
    cmdOutcome := fun _ => CmdOutcome.completed 1 "noise",
    ismount := fun _ => true }

/-- A setting with a dedicated (unencrypted, ext4) home partition. -/
def c10Env : Env := { baseEnv with partitions := [plainRootPart, bootPart, homePart] }

/-- Two deployment directories on the target; every command succeeds. -/
def c3Env : Env :=
  { baseEnv with
    partitions := [plainRootPart, bootPart],
    listdirRes := fun _ => Except.ok ["alpha", "beta"],
    isdir := fun _ => true }

/-- Zero deployment directories on the target. -/
def c3zEnv : Env :=
  { baseEnv with
    partitions := [plainRootPart, bootPart],
    listdirRes := fun _ => Except.ok [] }

/-- One deployment, a dedicated home device, /home currently mounted. -/
def c4wEnv : Env :=
  { baseEnv with
    partitions := [plainRootPart, bootPart, homePart],
    listdirRes := fun _ => Except.ok ["dep1"],
    isdir := fun _ => true,
    ismount := fun _ => true }

/-- Every os.makedirs call raises. -/
def c2Env : Env :=
  { baseEnv with
    partitions := [plainRootPart, bootPart],
    makedirsRes := fun _ => some (PyExc.osError "boom") }

/-- shutil.copy raises (caught by the step), so the first step answers
False. -/
def c2wEnv : Env :=
  { baseEnv with copyRes := fun _ _ => some (PyExc.osError "copyfail") }

theorem mbind_ok {α β : Type} (a : α) (tr : List Event) (f : α → M β) :
    mbind (Except.ok a, tr) f = ((f a).1, tr ++ (f a).2) := rfl

theorem mbind_error {α β : Type} (e : PyExc) (tr : List Event) (f : α → M β) :
    mbind (Except.error e, tr) f = (Except.error e, tr) := rfl

theorem mbind_mret {α β : Type} (a : α) (f : α → M β) : mbind (mret a) f = f a := by
  show ((f a).1, [] ++ (f a).2) = f a
  simp

/-- get_uuid with filesystem=False is a pure function of the partition
list. -/
theorem get_uuid_false (env : Env) (mp : String) :
    get_uuid env mp false = mret (uuid_false_val env.partitions mp) := by
  unfold get_uuid uuid_false_val
  cases hp : get_partition env.partitions mp with
  | none => rfl
  | some p => by_cases hl : truthyStr p.luksMapperName <;> simp [hl]

theorem boot_template_content_eq (env : Env) :
    boot_template_content env = mret (boot_template_pure env.partitions) := by
  unfold boot_template_content boot_template_pure home_option_val
  rw [get_uuid_false, mbind_mret]
  by_cases h : is_luks env.partitions "/home"
  · rw [if_pos h, if_pos h, get_uuid_false, mbind_mret, mbind_mret]
  · rw [if_neg h, if_neg h, mbind_mret]

/-- A command whose outcome is a clean zero exit makes runCmd succeed with
exactly its invocation in the trace. -/
theorem runCmd_success (env : Env) (c : List String) (h : cmd_fails env c = false) :
    runCmd env c = (Except.ok true, [Event.cmd c]) := by
  unfold cmd_fails at h
  unfold runCmd check_call pyTryCPE
  cases hc : env.cmdOutcome c with
  | completed n out =>
    rw [hc] at h
    simp only [Bool.not_eq_false', beq_iff_eq] at h
    simp [h, mbind, mret]
  | raised e => rw [hc] at h; simp at h

/-- A failing command makes runCmd answer something other than True, with its
invocation as the only command event. -/
theorem runCmd_fail (env : Env) (c : List String) (h : cmd_fails env c = true) :
    (runCmd env c).1 ≠ Except.ok true ∧ cmdEvents (runCmd env c).2 = [c] := by
  unfold cmd_fails at h
  unfold runCmd check_call pyTryCPE
  cases hc : env.cmdOutcome c with
  | completed n out =>
    rw [hc] at h
    have hn : ¬ n = 0 := by simpa using h
    simp [hn, mbind, mret, memit, cmdEvents]
  | raised e =>
    cases e with
    | calledProcessError m => simp [mbind, mret, memit, cmdEvents]
    | osError msg => simp [mbind, cmdEvents]
    | other msg => simp [mbind, cmdEvents]

/-- The command events of runCmd are always exactly the one invocation. -/
theorem runCmd_events (env : Env) (c : List String) :
    cmdEvents (runCmd env c).2 = [c] := by
  by_cases h : cmd_fails env c
  · exact (runCmd_fail env c h).2
  · rw [runCmd_success env c (by simpa using h)]
    simp [cmdEvents]

theorem cmdEvents_append (a b : List Event) :
    cmdEvents (a ++ b) = cmdEvents a ++ cmdEvents b := by
  simp [cmdEvents]

/-- The loop of remount_system issues exactly the commands up to and
including the first failing one. -/
theorem runCmds_events (env : Env) (cs : List (List String)) :
    cmdEvents (runCmds env cs).2 = cs.take (cs.findIdx (cmd_fails env) + 1) := by
  induction cs with
  | nil => simp [runCmds, mret, cmdEvents]
  | cons c rest ih =>
    by_cases h : cmd_fails env c
    · rw [List.findIdx_cons]
      simp only [h, cond_true, List.take_succ_cons, List.take_zero]
      unfold runCmds
      obtain ⟨h1, h2⟩ := runCmd_fail env c h
      cases hr : runCmd env c with
      | mk r tr =>
        cases r with
        | error e => simp [mbind, hr] at h2 ⊢; simp [h2]
        | ok b =>
          cases b with
          | true => rw [hr] at h1; simp at h1
          | false =>
            rw [hr] at h2
            simp only [mbind_ok, if_neg (Bool.false_ne_true), mret]
            simpa [cmdEvents] using h2
    · have hf : cmd_fails env c = false := by simpa using h
      rw [List.findIdx_cons, hf]
      simp only [cond_false]
      unfold runCmds
      rw [runCmd_success env c hf]
      simp only [mbind_ok, if_pos rfl]
      rw [List.take_succ_cons]
      show cmdEvents ([Event.cmd c] ++ (runCmds env rest).2) =
        c :: List.take (List.findIdx (cmd_fails env) rest + 1) rest
      rw [cmdEvents_append, ih]
      rfl

/-- When every command succeeds, the loop succeeds. -/
theorem runCmds_all_ok (env : Env) (cs : List (List String))
    (h : ∀ c ∈ cs, cmd_fails env c = false) :
    (runCmds env cs).1 = Except.ok true := by
  induction cs with
  | nil => rfl
  | cons c rest ih =>
    unfold runCmds
    rw [runCmd_success env c (h c (by simp))]
    simp only [mbind_ok, if_pos rfl]
    exact ih (fun x hx => h x (by simp [hx]))

/-- runCmd never writes a warning-level message. -/
theorem runCmd_no_warning (env : Env) (c : List String) :
    (runCmd env c).2.countP isWarning = 0 := by
  unfold runCmd check_call pyTryCPE
  cases env.cmdOutcome c with
  | completed n out =>
    by_cases h : n = 0 <;> simp [h, mbind, mret, memit, isWarning, List.countP_cons]
  | raised e =>
    cases e <;> simp [mbind, mret, memit, isWarning, List.countP_cons]

/-- The remount loop never writes a warning-level message. -/
theorem runCmds_no_warning (env : Env) (cs : List (List String)) :
    (runCmds env cs).2.countP isWarning = 0 := by
  induction cs with
  | nil => rfl
  | cons c rest ih =>
    unfold runCmds
    cases hr : runCmd env c with
    | mk r tr =>
      have hc : tr.countP isWarning = 0 := by
        have := runCmd_no_warning env c; rwa [hr] at this
      cases r with
      | error e => simp [mbind, hc]
      | ok b =>
        cases b with
        | true => simp [mbind_ok, if_pos rfl, List.countP_append, hc, ih]
        | false => simp [mbind_ok, mret, List.countP_append, hc]

/-- filter(None, commands) in remount_system yields exactly the
specification's ordered operation sequence. -/
theorem remount_commands_eq (env : Env) (s : String) :
    (remount_command_options env s).filterMap id = spec_remount_sequence env s := by
  unfold remount_command_options spec_remount_sequence
  by_cases hm : env.ismount (joinPath env.rootmount "home") <;>
    by_cases hh : truthyStr (get_device env.partitions "/home") <;>
      simp [hm, hh]

/-- With both devices resolvable and at least one deployment, remount_system
is exactly the command loop over the specification's sequence for the first
deployment in listing order. -/
theorem remount_system_run (env : Env) (entries : List String) (d : String) (rest : List String)
    (hroot : truthyStr (get_device env.partitions "/") = true)
    (hboot : truthyStr (get_device env.partitions "/boot") = true)
    (hls : env.listdirRes (deployments_dir_path env) = Except.ok entries)
    (hdirs : entries.filter (fun x => env.isdir (joinPath (deployments_dir_path env) x)) = d :: rest) :
    remount_system env =
      runCmds env (spec_remount_sequence env ("/arkdep/deployments/" ++ d ++ "/rootfs")) := by
  unfold remount_system pyListdir
  rw [hroot, hboot, hls]
  simp [hdirs, remount_commands_eq, mbind]

/-- A step that succeeds contributes its events and hands over to the rest. -/
theorem runSteps_cons_true (sd : String) (tr2 : List Event) (rest : List (String × M Bool)) :
    runSteps ((sd, (Except.ok true, tr2)) :: rest) = prependTrace tr2 (runSteps rest) := by
  show mbind (Except.ok true, tr2) _ = _
  rw [mbind_ok]
  simp [prependTrace]

/-- A step that answers False stops the loop with its pair. -/
theorem runSteps_cons_false (sd : String) (tr2 : List Event) (rest : List (String × M Bool)) :
    runSteps ((sd, (Except.ok false, tr2)) :: rest) =
      (Except.ok (some ("Installation Error", "Failed: " ++ sd)), tr2) := by
  show mbind (Except.ok false, tr2) _ = _
  rw [mbind_ok]
  simp [mret]

/-- The pipeline loop: if every step before the split succeeds and the split
step answers False, the loop stops there with that step's pair and only the
events of the executed steps. -/
theorem runSteps_split (pre : List (String × M Bool)) (description : String) (act : M Bool)
    (post : List (String × M Bool))
    (hpre : ∀ s ∈ pre, s.2.1 = Except.ok true)
    (hact : act.1 = Except.ok false) :
    runSteps (pre ++ (description, act) :: post) =
      (Except.ok (some ("Installation Error", "Failed: " ++ description)),
       (pre.map (fun s => s.2.2)).flatten ++ act.2) := by
  induction pre with
  | nil =>
    obtain ⟨r, tr⟩ := act
    simp only at hact
    subst hact
    rw [List.nil_append, runSteps_cons_false]
    simp
  | cons s pre ih =>
    obtain ⟨sd, sa⟩ := s
    obtain ⟨r, tr2⟩ := sa
    have hs : r = Except.ok true := hpre (sd, (r, tr2)) (by simp)
    subst hs
    rw [List.cons_append, runSteps_cons_true,
      ih (fun x hx => hpre x (by simp [hx]))]
    simp [prependTrace, List.append_assoc]

/-- C1 counterexample: for the root record with mapper name "cryptroot" and
plain uuid "AAAA-1111", with no mapper device on disk, the filesystem-UUID
query returns "AAAA-1111" — not the empty string the claim requires. -/
theorem claim_C1_counterexample :
    get_uuid c1Env "/" true = (Except.ok "AAAA-1111", []) ∧ "AAAA-1111" ≠ "" := by
  constructor
  · decide
  · decide

/-- C1 (amended): for a root record with a LUKS mapper name, if the mapper
device is absent the filesystem-UUID query falls back to the record's plain
uuid field (so it is empty only when that field is absent or empty); once the
mapper path exists and blkid exits cleanly, the query returns the probed,
whitespace-stripped UUID. -/
theorem claim_C1 (env : Env) (p : Partition)
    (hfind : get_partition env.partitions "/" = some p)
    (hluks : truthyStr p.luksMapperName = true) :
    (env.pathExists ("/dev/mapper/" ++ p.luksMapperName.getD "") = false →
       get_uuid env "/" true = (Except.ok (p.uuid.getD ""), []))
    ∧ (∀ out, env.pathExists ("/dev/mapper/" ++ p.luksMapperName.getD "") = true →
        env.cmdOutcome (blkid_cmd ("/dev/mapper/" ++ p.luksMapperName.getD "")) =
          CmdOutcome.completed 0 out →
        get_uuid env "/" true =
          (Except.ok (pyStrip out),
           [Event.cmd (blkid_cmd ("/dev/mapper/" ++ p.luksMapperName.getD ""))])) := by
  constructor
  · intro hex
    simp [get_uuid, hfind, hluks, hex, mret]
  · intro out hex hcmd
    simp [get_uuid, hfind, hluks, hex, hcmd, check_output, pyTryCPE, mbind, mret]

/-- C1 witness: a concrete encrypted root with the mapper present and blkid
answering " FS-UUID-77 \n" yields the stripped probed UUID. -/
theorem claim_C1_witness :
    get_uuid c1wEnv "/" true =
      (Except.ok "FS-UUID-77", [Event.cmd (blkid_cmd "/dev/mapper/cryptroot")]) := by
  have h := (claim_C1 c1wEnv luksRootPart (by decide) (by decide)).2
    " FS-UUID-77 \n" (by decide) (by decide)
  exact h.trans (by decide)

/-- C5 counterexample: with no matching record, the filesystem-type query
answers the default "btrfs", not an empty value as the claim requires. -/
theorem claim_C5_counterexample :
    get_filesystem [] "/" = "btrfs" ∧ "btrfs" ≠ "" := by
  constructor
  · decide
  · decide

/-- C5 (amended): the partition lookup returns the first record whose
mountPoint field matches exactly; when no record matches, the device,
encryption-flag and both UUID queries return empty or false values without a
fault, while the filesystem-type query returns the default "btrfs". -/
theorem claim_C5 :
    (∀ xs (p : Partition) ys mp, (∀ q ∈ xs, q.mountPoint ≠ some mp) →
       p.mountPoint = some mp → get_partition (xs ++ p :: ys) mp = some p)
    ∧ (∀ env mp, get_partition env.partitions mp = none →
        get_device env.partitions mp = none
        ∧ is_luks env.partitions mp = false
        ∧ get_uuid env mp true = (Except.ok "", [])
        ∧ get_uuid env mp false = (Except.ok "", [])
        ∧ get_filesystem env.partitions mp = "btrfs") := by
  constructor
  · intro xs p ys mp hxs hp
    induction xs with
    | nil => simp [get_partition, List.find?_cons_of_pos, hp]
    | cons x xs ih =>
      have hx : (x.mountPoint == some mp) = false := by
        have := hxs x (by simp)
        simpa using this
      rw [List.cons_append]
      unfold get_partition at ih ⊢
      rw [List.find?_cons_of_neg _ (by simp [hx])]
      exact ih (fun q hq => hxs q (by simp [hq]))
  · intro env mp h
    refine ⟨?_, ?_, ?_, ?_, ?_⟩
    · simp [get_device, h]
    · simp [is_luks, h, truthyStr, String.isEmpty]
    · simp [get_uuid, h, mret]
    · simp [get_uuid, h, mret]
    · simp [get_filesystem, h]

/-- C5 witness: first-match on a concrete two-record list and empty results
for the empty list. -/
theorem claim_C5_witness :
    get_partition ([bootPart] ++ plainRootPart :: []) "/" = some plainRootPart
    ∧ get_device baseEnv.partitions "/" = none := by
  constructor
  · exact claim_C5.1 [bootPart] plainRootPart [] "/"
      (fun q hq => by
        have : q = bootPart := by simpa using hq
        subst this
        decide)
      rfl
  · exact (claim_C5.2 baseEnv "/" rfl).1

/-- C9: when neither repository override is set (truthy), or when the arkdep
config file is absent under the root mount, update_arkdep_config succeeds
with an empty trace — in particular no file is read or written. -/
theorem claim_C9 (env : Env)
    (h : (truthyStr env.repoUrl = false ∧ truthyStr env.repoImage = false)
         ∨ env.pathExists (joinPath (joinPath env.rootmount "arkdep") "config") = false) :
    update_arkdep_config env = (Except.ok true, []) := by
  unfold update_arkdep_config
  rcases h with ⟨h1, h2⟩ | h
  · simp [h1, h2, mret]
  · by_cases hu : (!truthyStr env.repoUrl && !truthyStr env.repoImage) = true
    · simp [hu, mret]
    · simp [hu, h, mret]

/-- C9 witness: the benign environment has no overrides, and the override
environment has no config file on disk; both runs are success with no
events. -/
theorem claim_C9_witness :
    update_arkdep_config baseEnv = (Except.ok true, [])
    ∧ update_arkdep_config { baseEnv with repoUrl := some "https://repo" } = (Except.ok true, []) := by
  constructor
  · exact claim_C9 baseEnv (Or.inl ⟨rfl, rfl⟩)
  · exact claim_C9 { baseEnv with repoUrl := some "https://repo" } (Or.inr rfl)

/-- C10: with a dedicated /home record whose fs field is `ft`, the mount
options in the generated home line are the fixed function of `ft` alone:
the btrfs option string for "btrfs" and the remount-ro string otherwise; no
field of the record other than fs (and the filesystem-UUID query) is
consulted. -/
theorem claim_C10 (env : Env) (r : String) (p : Partition) (ft u : String) (tr : List Event)
    (hfind : get_partition env.partitions "/home" = some p)
    (hfs : p.fs = some ft)
    (huuid : get_uuid env "/home" true = (Except.ok u, tr)) :
    home_fstab_content env r =
      (Except.ok (home_fstab_text u ft
          (if ft = "btrfs" then "rw,relatime,ssd,discard=async,space_cache=v2,compress=zstd"
           else "rw,relatime,errors=remount-ro")), tr) := by
  have hft : get_filesystem env.partitions "/home" = ft := by
    simp [get_filesystem, hfind, hfs]
  unfold home_fstab_content
  rw [hfind, hft, huuid, mbind_ok]
  simp [mret]

/-- C10 witness: the concrete ext4 home record yields the remount-ro
options. -/
theorem claim_C10_witness :
    home_fstab_content c10Env "ROOTU" =
      (Except.ok (home_fstab_text "CCCC-3333" "ext4" "rw,relatime,errors=remount-ro"), []) := by
  have h := claim_C10 c10Env "ROOTU" homePart "ext4" "CCCC-3333" [] (by decide) rfl (by decide)
  exact h.trans (by decide)

/-- C7: the home line of the mount table is selected purely by presence of a
/home record: presence yields a line from the home partition's own
filesystem-UUID query, its filesystem type and the options derived from that
type; absence yields the shared-subvolume fallback line carrying the root
filesystem UUID — as also visible at the configure_fstab level. -/
theorem claim_C7 :
    (∀ env r u tr (p : Partition), get_partition env.partitions "/home" = some p →
       get_uuid env "/home" true = (Except.ok u, tr) →
       home_fstab_content env r =
         (Except.ok (home_fstab_text u (get_filesystem env.partitions "/home")
             (if get_filesystem env.partitions "/home" = "btrfs" then
                "rw,relatime,ssd,discard=async,space_cache=v2,compress=zstd"
              else "rw,relatime,errors=remount-ro")), tr))
    ∧ (∀ env r, get_partition env.partitions "/home" = none →
        home_fstab_content env r =
          (Except.ok (home_fstab_text r "btrfs"
             "rw,relatime,ssd,discard=async,space_cache=v2,subvol=arkdep/shared/home,compress=zstd"), []))
    ∧ (∀ env ru tr eu, get_partition env.partitions "/home" = none →
        get_uuid env "/" true = (Except.ok ru, tr) →
        get_uuid env "/boot" false = (Except.ok eu, []) →
        configure_fstab env =
          prependTrace tr
            (fmWrite env (fstab_path env)
              (fstab_text ru eu (home_fstab_text ru "btrfs"
                "rw,relatime,ssd,discard=async,space_cache=v2,subvol=arkdep/shared/home,compress=zstd")))) := by
  refine ⟨?_, ?_, ?_⟩
  · intro env r u tr p hfind huuid
    unfold home_fstab_content
    rw [hfind, huuid, mbind_ok]
    simp [mret]
  · intro env r hfind
    unfold home_fstab_content
    rw [hfind]
    rfl
  · intro env ru tr eu hfind hru heu
    unfold configure_fstab
    rw [hru, mbind_ok, heu, mbind_ok]
    unfold home_fstab_content
    rw [hfind]
    simp [mret, mbind, prependTrace, fstab_path, joinPath]

/-- C7 witness: with the dedicated home record the line uses its own UUID,
type and options; without one it uses the root UUID and the shared
subvolume. -/
theorem claim_C7_witness :
    home_fstab_content c10Env "RU" =
      (Except.ok (home_fstab_text "CCCC-3333" "ext4" "rw,relatime,errors=remount-ro"), [])
    ∧ home_fstab_content c1Env "RU" =
      (Except.ok (home_fstab_text "RU" "btrfs"
        "rw,relatime,ssd,discard=async,space_cache=v2,subvol=arkdep/shared/home,compress=zstd"), []) := by
  constructor
  · have h := claim_C7.1 c10Env "RU" "CCCC-3333" [] homePart (by decide) (by decide)
    exact h.trans (by decide)
  · exact claim_C7.2.1 c1Env "RU" (by decide)

/-- C6: the rendered boot-entry text is a pure function of the partition
list (identical partition lists give byte-identical text whatever the disk
or command state); the encrypted-root template is selected exactly when the
root record is encrypted, and then the text contains the unlock directive
naming the container UUID and the fixed mapper name manjaro_root; an
unencrypted root selects the plain template. -/
theorem claim_C6 :
    (∀ env₁ env₂ : Env, env₁.partitions = env₂.partitions →
       boot_template_content env₁ = boot_template_content env₂)
    ∧ (∀ env (p : Partition), get_partition env.partitions "/" = some p →
        truthyStr p.luksMapperName = true →
        boot_template_content env =
          (Except.ok (luks_systemd_boot_text (p.luksUuid.getD "")
            (home_option_val env.partitions)), [])
        ∧ ∃ a b, luks_systemd_boot_text (p.luksUuid.getD "") (home_option_val env.partitions) =
            a ++ ("rd.luks.name=" ++ p.luksUuid.getD "" ++ "=manjaro_root") ++ b)
    ∧ (∀ env (p : Partition), get_partition env.partitions "/" = some p →
        truthyStr p.luksMapperName = false →
        boot_template_content env =
          (Except.ok (systemd_boot_text (p.uuid.getD "")
            (home_option_val env.partitions)), [])) := by
  refine ⟨?_, ?_, ?_⟩
  · intro env₁ env₂ h
    rw [boot_template_content_eq, boot_template_content_eq, h]
  · intro env p hfind hluks
    have hl : is_luks env.partitions "/" = true := by
      simpa [is_luks, hfind] using hluks
    have huv : uuid_false_val env.partitions "/" = p.luksUuid.getD "" := by
      simp [uuid_false_val, hfind, hluks]
    constructor
    · rw [boot_template_content_eq]
      simp [boot_template_pure, hl, huv, mret]
    · exact ⟨"title Manjaro Summit\nlinux /arkdep/%target%/vmlinuz\ninitrd /amd-ucode.img\ninitrd /intel-ucode.img\ninitrd /arkdep/%target%/initramfs-linux.img\noptions ",
        " root=/dev/mapper/manjaro_root rootflags=subvol=/arkdep/deployments/%target%/rootfs "
          ++ home_option_val env.partitions
          ++ " lsm=landlock,lockdown,yama,integrity,apparmor,bpf quiet splash loglevel=3 systemd.show_status=auto rd.udev.log_level=3 rw\n",
        rfl⟩
  · intro env p hfind hluks
    have hl : is_luks env.partitions "/" = false := by
      simpa [is_luks, hfind] using hluks
    have huv : uuid_false_val env.partitions "/" = p.uuid.getD "" := by
      simp [uuid_false_val, hfind, hluks]
    rw [boot_template_content_eq]
    simp [boot_template_pure, hl, huv, mret]

set_option maxRecDepth 8192 in
/-- C6 witness: equal partition lists under different disk state render
byte-identically, and the concrete encrypted root selects the encrypted
template with its container UUID. -/
theorem claim_C6_witness :
    boot_template_content c1Env = boot_template_content c6Env2
    ∧ boot_template_content c1Env =
        (Except.ok (luks_systemd_boot_text "LUKS-CONTAINER-UUID" ""), []) := by
  constructor
  · exact claim_C6.1 c1Env c6Env2 rfl
  · have h := (claim_C6.2.1 c1Env luksRootPart (by decide) (by decide)).1
    exact h.trans (by decide)

/-- C3 counterexample: with two deployment directories on the target and all
commands succeeding, the remount step records no warning-level message at
all (it silently uses the first directory), contradicting the claim that a
warning is recorded. -/
theorem claim_C3_counterexample :
    (match c3Env.listdirRes (deployments_dir_path c3Env) with
     | Except.ok entries =>
         (entries.filter (fun x => c3Env.isdir (joinPath (deployments_dir_path c3Env) x))).length
     | Except.error _ => 0) = 2
    ∧ (remount_system c3Env).2.countP isWarning = 0
    ∧ cmdEvents (remount_system c3Env).2 =
        spec_remount_sequence c3Env "/arkdep/deployments/alpha/rootfs" := by
  refine ⟨by decide, by decide, by decide⟩

/-- C3 (amended): zero deployment directories make the remount step fail
with only an error log — before any mount or unmount is attempted; with one
or more, the first directory in listing order is used deterministically and
no warning is recorded. -/
theorem claim_C3 :
    (∀ env entries, truthyStr (get_device env.partitions "/") = true →
       truthyStr (get_device env.partitions "/boot") = true →
       env.listdirRes (deployments_dir_path env) = Except.ok entries →
       entries.filter (fun x => env.isdir (joinPath (deployments_dir_path env) x)) = [] →
       remount_system env = (Except.ok false, [Event.log "error" "No deployment found"]))
    ∧ (∀ env entries d rest, truthyStr (get_device env.partitions "/") = true →
        truthyStr (get_device env.partitions "/boot") = true →
        env.listdirRes (deployments_dir_path env) = Except.ok entries →
        entries.filter (fun x => env.isdir (joinPath (deployments_dir_path env) x)) = d :: rest →
        remount_system env =
          runCmds env (spec_remount_sequence env ("/arkdep/deployments/" ++ d ++ "/rootfs"))
        ∧ (remount_system env).2.countP isWarning = 0) := by
  constructor
  · intro env entries hroot hboot hls hfilter
    unfold remount_system pyListdir
    rw [hroot, hboot, hls]
    simp [hfilter, mbind, mret, memit]
  · intro env entries d rest hroot hboot hls hfilter
    have h := remount_system_run env entries d rest hroot hboot hls hfilter
    refine ⟨h, ?_⟩
    rw [h]
    exact runCmds_no_warning env _

/-- C3 witness: a concrete zero-deployment target fails with only the error
log; the concrete two-deployment target records no warning. -/
theorem claim_C3_witness :
    remount_system c3zEnv = (Except.ok false, [Event.log "error" "No deployment found"])
    ∧ (remount_system c3Env).2.countP isWarning = 0 := by
  constructor
  · exact claim_C3.1 c3zEnv [] (by decide) (by decide) rfl rfl
  · exact (claim_C3.2 c3Env ["alpha", "beta"] "alpha" ["beta"]
      (by decide) (by decide) rfl (by decide)).2

/-- C4: with resolvable root and boot devices and at least one deployment,
the commands the remount step issues are exactly the specification's ordered
sequence truncated just after the first failing operation (so a failure at
operation k prevents operations k+1..6), and when every operation succeeds
the whole sequence is issued and the step succeeds. -/
theorem claim_C4 (env : Env) (entries : List String) (d : String) (rest : List String)
    (hroot : truthyStr (get_device env.partitions "/") = true)
    (hboot : truthyStr (get_device env.partitions "/boot") = true)
    (hls : env.listdirRes (deployments_dir_path env) = Except.ok entries)
    (hdirs : entries.filter (fun x => env.isdir (joinPath (deployments_dir_path env) x)) = d :: rest) :
    cmdEvents (remount_system env).2 =
      (spec_remount_sequence env ("/arkdep/deployments/" ++ d ++ "/rootfs")).take
        ((spec_remount_sequence env ("/arkdep/deployments/" ++ d ++ "/rootfs")).findIdx
          (cmd_fails env) + 1)
    ∧ ((∀ c ∈ spec_remount_sequence env ("/arkdep/deployments/" ++ d ++ "/rootfs"),
          cmd_fails env c = false) →
        (remount_system env).1 = Except.ok true) := by
  have h := remount_system_run env entries d rest hroot hboot hls hdirs
  rw [h]
  exact ⟨runCmds_events env _, fun hall => runCmds_all_ok env _ hall⟩

/-- C4 witness: a concrete run with a mounted /home and a dedicated home
device issues all six operations in order and succeeds. -/
theorem claim_C4_witness :
    cmdEvents (remount_system c4wEnv).2 =
      [["umount", "/tmp/calamares-root/boot"],
       ["umount", "/tmp/calamares-root/home"],
       ["umount", "/tmp/calamares-root"],
       ["mount", "-o", "subvol=/arkdep/deployments/dep1/rootfs", "/dev/sda2", "/tmp/calamares-root"],
       ["mount", "/dev/sda3", "/tmp/calamares-root/home"],
       ["mount", "/dev/sda1", "/tmp/calamares-root/boot"]]
    ∧ (remount_system c4wEnv).1 = Except.ok true := by
  have h := claim_C4 c4wEnv ["dep1"] "dep1" [] (by decide) (by decide) rfl (by decide)
  exact ⟨h.1.trans (by decide), h.2 (by decide)⟩

/-- C2 counterexample: when os.makedirs raises in the first step (it is
outside any try block), the exception propagates out of the whole pipeline
instead of being converted into a (title, message) pair. -/
theorem claim_C2_counterexample :
    (install c2Env).1 = Except.error (PyExc.osError "boom") := by decide

/-- C2 (amended): when every step before a split point succeeds and the step
at the split point fails with a result (rather than an uncaught exception),
the pipeline stops there, returns ("Installation Error", "Failed: " plus
that step's name), and the events of the run are exactly those of the
executed steps — no later step runs and nothing is unwound.  (Faults such as
an os.makedirs/os.listdir error or a missing external binary are not
converted: they propagate past the pipeline boundary, as the counterexample
shows.) -/
theorem claim_C2 (env : Env) (pre post : List (String × M Bool))
    (description : String) (act : M Bool)
    (hsplit : install_steps env = pre ++ (description, act) :: post)
    (hpre : ∀ s ∈ pre, s.2.1 = Except.ok true)
    (hact : act.1 = Except.ok false) :
    install env =
      (Except.ok (some ("Installation Error", "Failed: " ++ description)),
       (pre.map (fun s => s.2.2)).flatten ++ act.2) := by
  unfold install
  rw [hsplit]
  exact runSteps_split pre description act post hpre hact

/-- C2 witness: a failing copy makes the first step answer False and the
pipeline returns its pair with exactly the first step's events. -/
theorem claim_C2_witness :
    install c2wEnv =
      (Except.ok (some ("Installation Error", "Failed: Setup systemd-boot")),
       [Event.makedirs "/tmp/calamares-root/boot/EFI/BOOT",
        Event.makedirs "/tmp/calamares-root/boot/EFI/systemd",
        Event.makedirs "/tmp/calamares-root/boot/loader/entries",
        Event.log "error" "Error copying systemd-boot"]) := by
  have h := claim_C2 c2wEnv [] (install_steps c2wEnv).tail
    "Setup systemd-boot" (setup_systemd_boot c2wEnv) rfl (by simp) (by decide)
  exact h.trans (by decide)
